import Mathlib

/-!
Verification of the early transport security negotiation engine
(`src/core/RDP/nego.hpp`, struct `RdpNego`).

The repository ships the class header; the member function bodies live in a
translation unit that is not part of the sources here.  The data model below
follows the header (field names, the `State` enum, the 2048-byte credential
buffers, the public signatures); the transition behaviour of the member
functions is modelled from the specification, as marked on each definition.
-/

namespace Nego

/-- The security modes enumerated by the negotiation request bitmask per the
spec: legacy, TLS, network-level authentication, its extended variant, and a
restricted-admin variant.  The header stores these as bits of the `uint32_t`
fields `enabled_protocols` and `selected_protocol`. -/
inductive Mode where
  | legacy
  | tlsMode
  | nla
  | nlaEx
  | restrictedAdmin
deriving DecidableEq, Repr

/-- Bit assigned to each mode in the negotiation request bitmask (the spec
describes "a bitmask field enumerating offered modes"). -/
def Mode.bit : Mode → Nat
  | .legacy => 1
  | .tlsMode => 2
  | .nla => 4
  | .nlaEx => 8
  | .restrictedAdmin => 16

/-- The state enum of `RdpNego` (header lines 94-101). -/
inductive State where
  | Negociate
  | SslHybrid
  | Tls
  | Credssp
  | Final
deriving DecidableEq, Repr

/-- Numeric position of each state in the declared ordering of the enum. -/
def State.idx : State → Nat
  | .Negociate => 0
  | .SslHybrid => 1
  | .Tls => 2
  | .Credssp => 3
  | .Final => 4

/-- The two Credential Provider variants held by the header as the
`unique_ptr` members `NTLM` and `credsspKerberos`. -/
inductive Provider where
  | ntlm
  | kerberos
deriving DecidableEq, Repr

/-- The negotiation session, following the fields of `struct RdpNego`
(header lines 45-106).  Strings and byte buffers are byte lists; the two
`unique_ptr` provider members are modelled by the liveness booleans
`ntlm_live` and `krb_live`.  The `allow_fallback_to_tls` flag is the
configuration bit the spec lists as allow-fallback-to-TLS-on-auth-failure. -/
structure RdpNego where
  tls : Bool
  nla : Bool
  krb : Bool
  restricted_admin_mode : Bool
  allow_fallback_to_tls : Bool
  nla_tried : Bool
  selected_protocol : Option Mode
  enabled_protocols : List Mode
  username : List Nat
  hostname : List Nat
  user : List Nat
  service_user : List Nat
  password : List Nat
  service_password : List Nat
  keytab_path : List Nat
  service_keytab_path : List Nat
  domain : List Nat
  target_host : List Nat
  lb_info : List Nat
  state : State
  ntlm_live : Bool
  krb_live : Bool
deriving DecidableEq, Repr

namespace RdpNego

/-- Modelled from the spec: the constructor body of `RdpNego` is not in the
sources; the spec says `requested_modes` is "computed once at construction
from configuration (legacy-only / TLS-only /
network-level-authentication-and-TLS / restricted-admin variant)". -/
def requestedModes (tls nla admin : Bool) : List Mode :=
  if nla then
    (if admin then [Mode.tlsMode, Mode.nla, Mode.restrictedAdmin]
     else [Mode.tlsMode, Mode.nla])
  else if tls then [Mode.tlsMode]
  else [Mode.legacy]

/-- Modelled from the spec: the constructor body of `RdpNego` is not in the
sources.  The parameter list follows the header declaration (lines 118-123):
in particular the Kerberos choice flag `krb` is a construction parameter,
separate from the identity fields later supplied by `set_identity`.  The
session starts in `Negociate` with no mode selected and no provider live. -/
def make (tls : Bool) (username : List Nat) (nla admin_mode : Bool)
    (target_host : List Nat) (krb : Bool) (allow_fallback : Bool) : RdpNego :=
  { tls := tls
    nla := nla
    krb := krb
    restricted_admin_mode := admin_mode
    allow_fallback_to_tls := allow_fallback
    nla_tried := false
    selected_protocol := none
    enabled_protocols := requestedModes tls nla admin_mode
    username := username
    hostname := []
    user := []
    service_user := []
    password := []
    service_password := []
    keytab_path := []
    service_keytab_path := []
    domain := []
    target_host := target_host
    lb_info := []
    state := State.Negociate
    ntlm_live := false
    krb_live := false }

/-- Arguments of `set_identity` (header lines 138-141): user name, password,
domain, host name, optional service account and service keytab path. -/
structure IdentityArgs where
  username : List Nat
  password : List Nat
  domain : List Nat
  hostname : List Nat
  service_username : List Nat
  service_password : List Nat
  service_keytab_path : List Nat
deriving DecidableEq, Repr

/-- Modelled from the spec: the body of `set_identity` is not in the sources.
The header declares the credential buffers as `uint8_t password[2048]` and
`uint8_t service_password[2048]` (lines 73-74), so a stored credential is
capped at the 2048-byte capacity; the other identity fields are copied. -/
def set_identity (s : RdpNego) (a : IdentityArgs) : RdpNego :=
  { s with
    user := a.username
    password := a.password.take 2048
    domain := a.domain
    hostname := a.hostname
    service_user := a.service_username
    service_password := a.service_password.take 2048
    service_keytab_path := a.service_keytab_path }

/-- `set_lb_info` (header line 116): records the routing token to carry
opaquely in the initial negotiation request. -/
def set_lb_info (s : RdpNego) (token : List Nat) : RdpNego :=
  { s with lb_info := token }

/-- Modelled from the spec: the body of
`enhanced_rdp_security_is_in_effect` is not in the sources; the spec says it
is "true unless `selected_mode` is legacy", and `selected_mode` is "unset
until the peer's reply is parsed". -/
def enhanced_rdp_security_is_in_effect (s : RdpNego) : Bool :=
  match s.selected_protocol with
  | none => false
  | some Mode.legacy => false
  | some _ => true

/-- The peer's negotiation reply: a success record carrying the single
selected mode, or a failure record carrying a peer-supplied failure code. -/
inductive Reply where
  | success (mode : Mode)
  | failure (code : Nat)
deriving DecidableEq, Repr

/-- Completion signal of the external TLS session. -/
inductive TlsResult where
  | ok
  | failed
deriving DecidableEq, Repr

/-- Outcome of one Credential Provider token-exchange step
(`next_token -> more | done | failed` in the spec). -/
inductive CredsspOutcome where
  | more
  | done
  | failed
deriving DecidableEq, Repr

/-- One protocol data unit or external signal fed to the engine. -/
inductive Event where
  | reply (r : Reply)
  | tlsSignal (r : TlsResult)
  | token (o : CredsspOutcome)
deriving DecidableEq, Repr

/-- Reasons a session aborts (spec error taxonomy in its section 7). -/
inductive AbortReason where
  | protocolError
  | peerFailure (code : Nat)
  | tlsFailure
  | credsspFailure
  | misuse
deriving DecidableEq, Repr

/-- Release of the Credential Provider members on an exit path: the spec
requires the provider destroyed "on every exit path including abort"; the
session fields other than the two provider members are untouched. -/
def teardown (s : RdpNego) : RdpNego :=
  { s with ntlm_live := false, krb_live := false }

/-- Result of processing one data unit: either the engine continues with an
updated session and the boolean the driver receives, or it aborts; the
aborted session has its providers released by `teardown`. -/
inductive Result where
  | ok (more : Bool) (s : RdpNego)
  | aborted (reason : AbortReason) (s : RdpNego)
deriving DecidableEq, Repr

/-- The session carried by a `Result`. -/
def Result.session : Result → RdpNego
  | .ok _ s => s
  | .aborted _ s => s

/-- Modelled from the spec: the body of `recv_connection_confirm` (header
line 160) is not in the sources.  Spec row `Negotiate`: a failure record
aborts; a success record proposing a mode outside `requested_modes` aborts
with a protocol error; otherwise `selected_mode` is set and the engine
advances to `SslHybrid` for network-level authentication, `Tls` for TLS
only, or `Final` for legacy. -/
def recv_connection_confirm (s : RdpNego) (r : Reply) : Result :=
  match r with
  | .failure code => .aborted (.peerFailure code) (teardown s)
  | .success m =>
    if m ∈ s.enabled_protocols then
      match m with
      | .legacy =>
        .ok false { s with selected_protocol := some m, state := State.Final }
      | .tlsMode =>
        .ok true { s with selected_protocol := some m, state := State.Tls }
      | _ =>
        .ok true { s with selected_protocol := some m, state := State.SslHybrid }
    else .aborted .protocolError (teardown s)

/-- `fallback_to_tls` (header line 158), modelled from the spec: the
configured downgrade edge retries as a plain TLS session. -/
def fallback_to_tls (s : RdpNego) : RdpNego :=
  { s with state := State.Tls }

/-- Modelled from the spec: the body of `activate_ssl_hybrid` (header line
164) is not in the sources.  Spec row `AuthStart`: on TLS success the
engine enters the authentication phase, marks `nla_tried` and instantiates
exactly one Credential Provider; the header (lines 56, 118-123) supplies the
construction-time `krb` flag deciding between the `NTLM` and
`credsspKerberos` members.  On TLS failure the engine falls back to `Tls`
when the configuration permits it and aborts otherwise. -/
def activate_ssl_hybrid (s : RdpNego) (r : TlsResult) : Result :=
  match r with
  | .ok =>
    if s.krb then
      .ok true { s with state := State.Credssp, nla_tried := true, krb_live := true }
    else
      .ok true { s with state := State.Credssp, nla_tried := true, ntlm_live := true }
  | .failed =>
    if s.allow_fallback_to_tls then .ok true (fallback_to_tls s)
    else .aborted .tlsFailure (teardown s)

/-- Modelled from the spec: the body of `activate_ssl_tls` (header line 162)
is not in the sources.  Spec row `Tls`: TLS success finishes negotiation;
TLS failure aborts. -/
def activate_ssl_tls (s : RdpNego) (r : TlsResult) : Result :=
  match r with
  | .ok => .ok false { s with state := State.Final }
  | .failed => .aborted .tlsFailure (teardown s)

/-- Modelled from the spec: the body of `recv_credssp` (header line 166) is
not in the sources.  Spec row `Auth`: "more data needed" keeps the exchange
going in the same state; "complete" discards the provider and finishes;
provider failure aborts without any fallback. -/
def recv_credssp (s : RdpNego) (o : CredsspOutcome) : Result :=
  match o with
  | .more => .ok true s
  | .done =>
    .ok false { s with state := State.Final, ntlm_live := false, krb_live := false }
  | .failed => .aborted .credsspFailure (teardown s)

/-- Modelled from the spec: the body of `recv_next_data` (header lines
153-155) is not in the sources.  It dispatches the incoming unit on the
current state; a unit structurally invalid for the state is a protocol
error, and a call in the terminal state is a precondition violation.  The
returned boolean follows the header comment "return false if terminal
state". -/
def recv_next_data (s : RdpNego) (e : Event) : Result :=
  match s.state, e with
  | State.Negociate, .reply r => recv_connection_confirm s r
  | State.SslHybrid, .tlsSignal r => activate_ssl_hybrid s r
  | State.Tls, .tlsSignal r => activate_ssl_tls s r
  | State.Credssp, .token o => recv_credssp s o
  | State.Final, _ => .aborted .misuse (teardown s)
  | _, _ => .aborted .protocolError (teardown s)

/-- The provider currently held by the session, if any (mirrors which of the
two `unique_ptr` members is non-null). -/
def liveProvider (s : RdpNego) : Option Provider :=
  if s.ntlm_live then some Provider.ntlm
  else if s.krb_live then some Provider.kerberos
  else none

/-- The identity fields of the session as one tuple: the fields set by
`set_identity` (header lines 138-141). -/
def identityFields (s : RdpNego) :
    List Nat × List Nat × List Nat × List Nat × List Nat × List Nat × List Nat :=
  (s.user, s.password, s.domain, s.hostname, s.service_user,
   s.service_password, s.service_keytab_path)

/-- The bitmask enumerating the offered modes, as carried by the `uint32_t`
field `enabled_protocols` of the header and by the bitmask field of the
initial negotiation request. -/
def modesBitmask (l : List Mode) : Nat :=
  (if Mode.legacy ∈ l then 1 else 0) +
  (if Mode.tlsMode ∈ l then 2 else 0) +
  (if Mode.nla ∈ l then 4 else 0) +
  (if Mode.nlaEx ∈ l then 8 else 0) +
  (if Mode.restrictedAdmin ∈ l then 16 else 0)

/-- Modelled from the spec: the body of `send_negotiation_request` (header
line 143) is not in the sources.  Per the spec the initial negotiation
request is a fixed-layout record with explicit length and type fields: the
routing token carried opaquely behind its length, then a type byte, a flags
byte, the record length, and the 32-bit little-endian bitmask of offered
modes. -/
def negotiationRequestBytes (modes : Nat) (token : List Nat) : List Nat :=
  token.length :: token ++
    [1, 0, 8, 0,
     modes % 256, modes / 256 % 256, modes / 65536 % 256, modes / 16777216 % 256]

/-- `send_negotiation_request` (header line 143): the bytes written to the
transport for the current session, offering `enabled_protocols` and carrying
the routing token recorded by `set_lb_info`. -/
def send_negotiation_request (s : RdpNego) : List Nat :=
  negotiationRequestBytes (modesBitmask s.enabled_protocols) s.lb_info

/-- Modelled from the spec: the peer-side decoder of the initial negotiation
request; it reads the routing token behind its length field, checks the type
and record-length fields, reconstructs the offered-modes bitmask and ignores
unknown trailing bytes.  A record shorter than the mandatory fixed fields,
or with an inconsistent length field, is a hard parse failure. -/
def parseNegotiationRequest (data : List Nat) : Option (Nat × List Nat) :=
  match data with
  | [] => none
  | tlen :: rest =>
    if tlen ≤ rest.length then
      match rest.drop tlen with
      | 1 :: _flags :: 8 :: 0 :: b0 :: b1 :: b2 :: b3 :: _ =>
        some (b0 + 256 * (b1 + 256 * (b2 + 256 * b3)), rest.take tlen)
      | _ => none
    else none

/-- The sessions reachable through the public interface: construction,
identity setup, and the accept-next-unit operation (continuing or
aborting). -/
inductive Reaches : RdpNego → Prop where
  | init (tls : Bool) (username : List Nat) (nla admin : Bool)
      (target_host : List Nat) (krb fb : Bool) :
      Reaches (make tls username nla admin target_host krb fb)
  | set_id (s : RdpNego) (a : IdentityArgs) :
      Reaches s → Reaches (set_identity s a)
  | step_ok (s : RdpNego) (e : Event) (b : Bool) (s2 : RdpNego) :
      Reaches s → recv_next_data s e = .ok b s2 → Reaches s2
  | step_abort (s : RdpNego) (e : Event) (r : AbortReason) (s2 : RdpNego) :
      Reaches s → recv_next_data s e = .aborted r s2 → Reaches s2

/-- The structural invariant of a live session: a mode has been selected
once the engine has left `Negociate`; the two Credential Provider members
are never live together, and one is live only in the authentication phase;
the credential buffers never exceed their 2048-byte capacity. -/
structure Inv (s : RdpNego) : Prop where
  sel : s.state ≠ State.Negociate → s.selected_protocol.isSome = true
  one : ¬(s.ntlm_live = true ∧ s.krb_live = true)
  live : s.ntlm_live = true ∨ s.krb_live = true → s.state = State.Credssp
  pw : s.password.length ≤ 2048
  spw : s.service_password.length ≤ 2048

/-- A session constructed to offer TLS and network-level authentication,
without the Kerberos flag and without TLS fallback. -/
def sessNego : RdpNego := make false [] true false [] false false

/-- `sessNego` after the peer selected network-level authentication. -/
def sessHybrid : RdpNego :=
  { sessNego with selected_protocol := some Mode.nla, state := State.SslHybrid }

/-- `sessHybrid` after the TLS handshake succeeded: authentication phase,
NTLM provider live. -/
def sessCredssp : RdpNego :=
  { sessHybrid with state := State.Credssp, nla_tried := true, ntlm_live := true }

/-- `sessCredssp` after the Credential Provider reported completion. -/
def sessFinal : RdpNego :=
  { sessCredssp with state := State.Final, ntlm_live := false, krb_live := false }

/-- Like `sessNego` but constructed with the Kerberos flag set. -/
def sessNegoK : RdpNego := make false [] true false [] true false

/-- `sessNegoK` after the peer selected network-level authentication. -/
def sessHybridK : RdpNego :=
  { sessNegoK with selected_protocol := some Mode.nla, state := State.SslHybrid }

/-- `sessHybridK` after the TLS handshake succeeded: authentication phase,
Kerberos provider live. -/
def sessCredsspK : RdpNego :=
  { sessHybridK with state := State.Credssp, nla_tried := true, krb_live := true }

/-- A session constructed to offer TLS only. -/
def sessTlsOnly : RdpNego := make true [] false false [] false false

/-- Identity arguments with credentials longer than the 2048-byte buffers. -/
def bigArgs : IdentityArgs :=
  { username := [117]
    password := List.replicate 3000 65
    domain := []
    hostname := []
    service_username := []
    service_password := List.replicate 2049 66
    service_keytab_path := [] }

/-- `sessNego` after supplying the oversized identity. -/
def sessBigId : RdpNego := set_identity sessNego bigArgs

/-- The offered-modes bitmask fits in 32 bits. -/
theorem modesBitmask_lt (l : List Mode) : modesBitmask l < 4294967296 := by
  unfold modesBitmask
  split_ifs <;> norm_num

/-- Decoding inverts encoding for any 32-bit bitmask and any routing
token. -/
theorem parse_negotiationRequestBytes (modes : Nat) (token : List Nat)
    (hm : modes < 4294967296) :
    parseNegotiationRequest (negotiationRequestBytes modes token) =
      some (modes, token) := by
  have key : modes % 256 + 256 * (modes / 256 % 256 +
      256 * (modes / 65536 % 256 + 256 * (modes / 16777216 % 256))) = modes := by
    omega
  simp [negotiationRequestBytes, parseNegotiationRequest, List.drop_left,
    List.take_left, key]

theorem inv_make (tls : Bool) (username : List Nat) (nla admin : Bool)
    (target_host : List Nat) (krb fb : Bool) :
    Inv (make tls username nla admin target_host krb fb) := by
  refine ⟨?_, ?_, ?_, ?_, ?_⟩ <;> simp [make]

theorem inv_set_identity (s : RdpNego) (a : IdentityArgs) (h : Inv s) :
    Inv (set_identity s a) := by
  obtain ⟨h1, h2, h3, h4, h5⟩ := h
  refine ⟨?_, ?_, ?_, ?_, ?_⟩
  · simpa [set_identity] using h1
  · simpa [set_identity] using h2
  · simpa [set_identity] using h3
  · simp [set_identity, List.length_take]
  · simp [set_identity, List.length_take]

theorem inv_teardown (s : RdpNego) (h : Inv s) : Inv (teardown s) := by
  obtain ⟨h1, h2, h3, h4, h5⟩ := h
  refine ⟨?_, ?_, ?_, ?_, ?_⟩
  · simpa [teardown] using h1
  · simp [teardown]
  · simp [teardown]
  · simpa [teardown] using h4
  · simpa [teardown] using h5

/-- Outside the authentication phase both provider members are released. -/
theorem providers_off (s : RdpNego)
    (h3 : s.ntlm_live = true ∨ s.krb_live = true → s.state = State.Credssp)
    (hst : s.state ≠ State.Credssp) :
    s.ntlm_live = false ∧ s.krb_live = false := by
  constructor
  · cases hb : s.ntlm_live
    · rfl
    · exact absurd (h3 (Or.inl hb)) hst
  · cases hb : s.krb_live
    · rfl
    · exact absurd (h3 (Or.inr hb)) hst

/-- One step of `recv_next_data` preserves the invariant, on the continuing
session as well as on the torn-down session of an abort. -/
theorem inv_step (s : RdpNego) (e : Event) (h : Inv s) :
    Inv ((recv_next_data s e).session) := by
  obtain ⟨h1, h2, h3, h4, h5⟩ := h
  cases hst : s.state <;> cases e
  case Negociate.reply r =>
    have hoff := providers_off s h3 (by simp [hst])
    obtain ⟨hn, hk⟩ := hoff
    cases r with
    | failure code =>
      simp only [recv_next_data, hst, recv_connection_confirm, Result.session]
      exact inv_teardown s ⟨h1, h2, h3, h4, h5⟩
    | success m =>
      by_cases hmem : m ∈ s.enabled_protocols
      · cases m <;>
          simp only [recv_next_data, hst, recv_connection_confirm, if_pos hmem,
            Result.session] <;>
          exact ⟨by simp, by simpa using h2, by simp [hn, hk], by simpa using h4,
            by simpa using h5⟩
      · simp only [recv_next_data, hst, recv_connection_confirm, if_neg hmem,
          Result.session]
        exact inv_teardown s ⟨h1, h2, h3, h4, h5⟩
  case Negociate.tlsSignal r =>
    simp only [recv_next_data, hst, Result.session]
    exact inv_teardown s ⟨h1, h2, h3, h4, h5⟩
  case Negociate.token o =>
    simp only [recv_next_data, hst, Result.session]
    exact inv_teardown s ⟨h1, h2, h3, h4, h5⟩
  case SslHybrid.reply r =>
    simp only [recv_next_data, hst, Result.session]
    exact inv_teardown s ⟨h1, h2, h3, h4, h5⟩
  case SslHybrid.tlsSignal r =>
    have hoff := providers_off s h3 (by simp [hst])
    obtain ⟨hn, hk⟩ := hoff
    have hsel : s.selected_protocol.isSome = true := h1 (by simp [hst])
    cases r with
    | ok =>
      cases hkrb : s.krb <;>
        simp only [recv_next_data, hst, activate_ssl_hybrid, hkrb, Bool.false_eq_true,
          if_true, if_false, Result.session] <;>
        exact ⟨by simpa using hsel, by simp [hn, hk], by simp,
          by simpa using h4, by simpa using h5⟩
    | failed =>
      cases hfb : s.allow_fallback_to_tls with
      | true =>
        simp only [recv_next_data, hst, activate_ssl_hybrid, hfb, if_true,
          fallback_to_tls, Result.session]
        exact ⟨by simpa using hsel, by simpa using h2, by simp [hn, hk],
          by simpa using h4, by simpa using h5⟩
      | false =>
        simp only [recv_next_data, hst, activate_ssl_hybrid, hfb, Bool.false_eq_true,
          if_false, Result.session]
        exact inv_teardown s ⟨h1, h2, h3, h4, h5⟩
  case SslHybrid.token o =>
    simp only [recv_next_data, hst, Result.session]
    exact inv_teardown s ⟨h1, h2, h3, h4, h5⟩
  case Tls.reply r =>
    simp only [recv_next_data, hst, Result.session]
    exact inv_teardown s ⟨h1, h2, h3, h4, h5⟩
  case Tls.tlsSignal r =>
    have hoff := providers_off s h3 (by simp [hst])
    obtain ⟨hn, hk⟩ := hoff
    have hsel : s.selected_protocol.isSome = true := h1 (by simp [hst])
    cases r with
    | ok =>
      simp only [recv_next_data, hst, activate_ssl_tls, Result.session]
      exact ⟨by simpa using hsel, by simpa using h2, by simp [hn, hk],
        by simpa using h4, by simpa using h5⟩
    | failed =>
      simp only [recv_next_data, hst, activate_ssl_tls, Result.session]
      exact inv_teardown s ⟨h1, h2, h3, h4, h5⟩
  case Tls.token o =>
    simp only [recv_next_data, hst, Result.session]
    exact inv_teardown s ⟨h1, h2, h3, h4, h5⟩
  case Credssp.reply r =>
    simp only [recv_next_data, hst, Result.session]
    exact inv_teardown s ⟨h1, h2, h3, h4, h5⟩
  case Credssp.tlsSignal r =>
    simp only [recv_next_data, hst, Result.session]
    exact inv_teardown s ⟨h1, h2, h3, h4, h5⟩
  case Credssp.token o =>
    have hsel : s.selected_protocol.isSome = true := h1 (by simp [hst])
    cases o with
    | more =>
      simp only [recv_next_data, hst, recv_credssp, Result.session]
      exact ⟨h1, h2, h3, h4, h5⟩
    | done =>
      simp only [recv_next_data, hst, recv_credssp, Result.session]
      exact ⟨by simpa using hsel, by simp, by simp, by simpa using h4,
        by simpa using h5⟩
    | failed =>
      simp only [recv_next_data, hst, recv_credssp, Result.session]
      exact inv_teardown s ⟨h1, h2, h3, h4, h5⟩
  case Final.reply r =>
    simp only [recv_next_data, hst, Result.session]
    exact inv_teardown s ⟨h1, h2, h3, h4, h5⟩
  case Final.tlsSignal r =>
    simp only [recv_next_data, hst, Result.session]
    exact inv_teardown s ⟨h1, h2, h3, h4, h5⟩
  case Final.token o =>
    simp only [recv_next_data, hst, Result.session]
    exact inv_teardown s ⟨h1, h2, h3, h4, h5⟩

/-- Every session reachable through the public interface satisfies the
structural invariant. -/
theorem reaches_inv (s : RdpNego) (h : Reaches s) : Inv s := by
  induction h with
  | init tls username nla admin target_host krb fb =>
    exact inv_make tls username nla admin target_host krb fb
  | set_id s a _ ih => exact inv_set_identity s a ih
  | step_ok s e b s2 _ heq ih =>
    have hs := inv_step s e ih
    rw [heq] at hs
    simpa [Result.session] using hs
  | step_abort s e r s2 _ heq ih =>
    have hs := inv_step s e ih
    rw [heq] at hs
    simpa [Result.session] using hs

theorem reach_sessNego : Reaches sessNego :=
  Reaches.init false [] true false [] false false

theorem reach_sessHybrid : Reaches sessHybrid :=
  Reaches.step_ok sessNego (Event.reply (Reply.success Mode.nla)) true sessHybrid
    reach_sessNego (by decide)

theorem reach_sessCredssp : Reaches sessCredssp :=
  Reaches.step_ok sessHybrid (Event.tlsSignal TlsResult.ok) true sessCredssp
    reach_sessHybrid (by decide)

theorem reach_sessFinal : Reaches sessFinal :=
  Reaches.step_ok sessCredssp (Event.token CredsspOutcome.done) false sessFinal
    reach_sessCredssp (by decide)

theorem reach_sessNegoK : Reaches sessNegoK :=
  Reaches.init false [] true false [] true false

theorem reach_sessHybridK : Reaches sessHybridK :=
  Reaches.step_ok sessNegoK (Event.reply (Reply.success Mode.nla)) true sessHybridK
    reach_sessNegoK (by decide)

theorem reach_sessCredsspK : Reaches sessCredsspK :=
  Reaches.step_ok sessHybridK (Event.tlsSignal TlsResult.ok) true sessCredsspK
    reach_sessHybridK (by decide)

theorem reach_sessBigId : Reaches sessBigId :=
  Reaches.set_id sessNego bigArgs reach_sessNego

/-- C1: in the `Negociate` state, a peer reply proposing a mode outside
`enabled_protocols` makes the engine abort with a protocol error without
advancing the state, and every successful `Negociate` transition records a
`selected_protocol` that is an element of `enabled_protocols`. -/
theorem negotiate_anti_downgrade (s : RdpNego) (h : s.state = State.Negociate) :
    (∀ m : Mode, m ∉ s.enabled_protocols →
      recv_next_data s (Event.reply (Reply.success m)) =
        Result.aborted AbortReason.protocolError (teardown s) ∧
      (teardown s).state = s.state) ∧
    (∀ (e : Event) (b : Bool) (s2 : RdpNego),
      recv_next_data s e = Result.ok b s2 →
      ∃ m : Mode, s2.selected_protocol = some m ∧ m ∈ s.enabled_protocols) := by
  constructor
  · intro m hm
    exact ⟨by simp [recv_next_data, h, recv_connection_confirm, hm], by simp [teardown]⟩
  · intro e b s2 heq
    cases e with
    | reply r =>
      cases r with
      | success m =>
        by_cases hmem : m ∈ s.enabled_protocols
        · refine ⟨m, ?_, hmem⟩
          cases m <;>
            simp only [recv_next_data, h, recv_connection_confirm, if_pos hmem,
              Result.ok.injEq] at heq <;>
          · obtain ⟨hb, hs2⟩ := heq
            rw [← hs2]
        · simp [recv_next_data, h, recv_connection_confirm, hmem] at heq
      | failure code =>
        simp [recv_next_data, h, recv_connection_confirm] at heq
    | tlsSignal r => simp [recv_next_data, h] at heq
    | token o => simp [recv_next_data, h] at heq

theorem negotiate_anti_downgrade_witness :
    sessTlsOnly.state = State.Negociate ∧
    Mode.nla ∉ sessTlsOnly.enabled_protocols ∧
    recv_next_data sessTlsOnly (Event.reply (Reply.success Mode.nla)) =
      Result.aborted AbortReason.protocolError (teardown sessTlsOnly) ∧
    (teardown sessTlsOnly).state = sessTlsOnly.state :=
  ⟨rfl, by decide,
    (negotiate_anti_downgrade sessTlsOnly rfl).1 Mode.nla (by decide)⟩

/-- C2: in the authentication phase, a Credential Provider failure aborts
the session with a credential-exchange error; the torn-down session is
still in `Credssp` (so the failure never transitions into `Tls`), and its
`selected_protocol` is unchanged (no silent downgrade to a weaker mode). -/
theorem credssp_failure_aborts (s : RdpNego) (h : s.state = State.Credssp) :
    recv_next_data s (Event.token CredsspOutcome.failed) =
      Result.aborted AbortReason.credsspFailure (teardown s) ∧
    (teardown s).state = State.Credssp ∧
    (teardown s).selected_protocol = s.selected_protocol := by
  refine ⟨?_, ?_, ?_⟩ <;> simp [recv_next_data, h, recv_credssp, teardown]

theorem credssp_failure_aborts_witness :
    sessCredssp.state = State.Credssp ∧
    recv_next_data sessCredssp (Event.token CredsspOutcome.failed) =
      Result.aborted AbortReason.credsspFailure (teardown sessCredssp) ∧
    (teardown sessCredssp).state = State.Credssp ∧
    (teardown sessCredssp).selected_protocol = sessCredssp.selected_protocol :=
  ⟨rfl, credssp_failure_aborts sessCredssp rfl⟩

/-- C3: in the `SslHybrid` state, a TLS handshake failure transitions to
`Tls` exactly when the fallback configuration flag is set, and aborts when
it is not; the fallback session then retries as a plain TLS session and
finishes without any authentication exchange. -/
theorem sslhybrid_tls_failure_fallback (s : RdpNego) (h : s.state = State.SslHybrid) :
    (s.allow_fallback_to_tls = true →
      recv_next_data s (Event.tlsSignal TlsResult.failed) =
        Result.ok true { s with state := State.Tls }) ∧
    (s.allow_fallback_to_tls = false →
      recv_next_data s (Event.tlsSignal TlsResult.failed) =
        Result.aborted AbortReason.tlsFailure (teardown s)) ∧
    recv_next_data { s with state := State.Tls } (Event.tlsSignal TlsResult.ok) =
      Result.ok false { s with state := State.Final } := by
  refine ⟨?_, ?_, ?_⟩
  · intro hfb
    simp [recv_next_data, h, activate_ssl_hybrid, hfb, fallback_to_tls]
  · intro hfb
    simp [recv_next_data, h, activate_ssl_hybrid, hfb]
  · simp [recv_next_data, activate_ssl_tls]

theorem sslhybrid_tls_failure_fallback_witness :
    sessHybrid.state = State.SslHybrid ∧
    sessHybrid.allow_fallback_to_tls = false ∧
    recv_next_data sessHybrid (Event.tlsSignal TlsResult.failed) =
      Result.aborted AbortReason.tlsFailure (teardown sessHybrid) :=
  ⟨rfl, rfl, (sslhybrid_tls_failure_fallback sessHybrid rfl).2.1 rfl⟩

/-- C4 (amended): every accepted data unit moves the state forward or keeps
it unchanged in the declared ordering of the `State` enum, never backwards;
the only non-advancing transition is the `Credssp` self-loop taken while
the Credential Provider still needs more tokens. -/
theorem state_monotone (s : RdpNego) (e : Event) (b : Bool) (s2 : RdpNego)
    (h : recv_next_data s e = Result.ok b s2) :
    s.state.idx ≤ s2.state.idx ∧ (s2.state = s.state → s.state = State.Credssp) := by
  cases hst : s.state <;> cases e
  case Negociate.reply r =>
    cases r with
    | success m =>
      by_cases hmem : m ∈ s.enabled_protocols
      · cases m <;>
          simp only [recv_next_data, hst, recv_connection_confirm, if_pos hmem,
            Result.ok.injEq] at h <;>
        · obtain ⟨hb, hs2⟩ := h
          rw [← hs2]
          simp [hst, State.idx]
      · simp [recv_next_data, hst, recv_connection_confirm, hmem] at h
    | failure code =>
      simp [recv_next_data, hst, recv_connection_confirm] at h
  case Negociate.tlsSignal r => simp [recv_next_data, hst] at h
  case Negociate.token o => simp [recv_next_data, hst] at h
  case SslHybrid.reply r => simp [recv_next_data, hst] at h
  case SslHybrid.tlsSignal r =>
    cases r with
    | ok =>
      cases hkrb : s.krb <;>
        simp only [recv_next_data, hst, activate_ssl_hybrid, hkrb,
          Bool.false_eq_true, if_true, if_false, Result.ok.injEq] at h <;>
      · obtain ⟨hb, hs2⟩ := h
        rw [← hs2]
        simp [hst, State.idx]
    | failed =>
      cases hfb : s.allow_fallback_to_tls with
      | true =>
        simp only [recv_next_data, hst, activate_ssl_hybrid, hfb, if_true,
          fallback_to_tls, Result.ok.injEq] at h
        obtain ⟨hb, hs2⟩ := h
        rw [← hs2]
        simp [hst, State.idx]
      | false =>
        simp [recv_next_data, hst, activate_ssl_hybrid, hfb] at h
  case SslHybrid.token o => simp [recv_next_data, hst] at h
  case Tls.reply r => simp [recv_next_data, hst] at h
  case Tls.tlsSignal r =>
    cases r with
    | ok =>
      simp only [recv_next_data, hst, activate_ssl_tls, Result.ok.injEq] at h
      obtain ⟨hb, hs2⟩ := h
      rw [← hs2]
      simp [hst, State.idx]
    | failed =>
      simp [recv_next_data, hst, activate_ssl_tls] at h
  case Tls.token o => simp [recv_next_data, hst] at h
  case Credssp.reply r => simp [recv_next_data, hst] at h
  case Credssp.tlsSignal r => simp [recv_next_data, hst] at h
  case Credssp.token o =>
    cases o with
    | more =>
      simp only [recv_next_data, hst, recv_credssp, Result.ok.injEq] at h
      obtain ⟨hb, hs2⟩ := h
      rw [← hs2]
      simp [hst, State.idx]
    | done =>
      simp only [recv_next_data, hst, recv_credssp, Result.ok.injEq] at h
      obtain ⟨hb, hs2⟩ := h
      rw [← hs2]
      simp [hst, State.idx]
    | failed =>
      simp [recv_next_data, hst, recv_credssp] at h
  case Final.reply r => simp [recv_next_data, hst] at h
  case Final.tlsSignal r => simp [recv_next_data, hst] at h
  case Final.token o => simp [recv_next_data, hst] at h

theorem state_monotone_witness :
    (recv_next_data sessNego (Event.reply (Reply.success Mode.nla)) =
      Result.ok true sessHybrid) ∧
    (sessNego.state.idx ≤ sessHybrid.state.idx ∧
      (sessHybrid.state = sessNego.state → sessNego.state = State.Credssp)) :=
  ⟨by decide, state_monotone sessNego (Event.reply (Reply.success Mode.nla)) true
    sessHybrid (by decide)⟩

/-- C4 counterexample: from the reachable session `sessCredssp` the accepted
token unit on which the provider reports "more data needed" yields the very
same session, an accepted transition to an equal (not strictly later)
state, so the state ordering is not strictly increasing. -/
theorem state_strictness_counterexample :
    Reaches sessCredssp ∧
    recv_next_data sessCredssp (Event.token CredsspOutcome.more) =
      Result.ok true sessCredssp ∧
    sessCredssp.state = State.Credssp :=
  ⟨reach_sessCredssp, by decide, rfl⟩

/-- C5 (amended): the Credential Provider instantiated on entering the
authentication phase is a pure function of the construction-time `krb`
flag: the Kerberos provider when it is set, the NTLM provider otherwise;
`set_identity` (including its service keytab path argument) does not
influence the flag. -/
theorem provider_choice_by_krb_flag (s : RdpNego) (h : s.state = State.SslHybrid)
    (hn : s.ntlm_live = false) (_hk : s.krb_live = false) :
    liveProvider ((recv_next_data s (Event.tlsSignal TlsResult.ok)).session) =
      some (if s.krb then Provider.kerberos else Provider.ntlm) ∧
    ∀ a : IdentityArgs, (set_identity s a).krb = s.krb := by
  constructor
  · cases hkrb : s.krb <;>
      simp [recv_next_data, h, activate_ssl_hybrid, hkrb, Result.session,
        liveProvider, hn]
  · intro a
    simp [set_identity]

theorem provider_choice_by_krb_flag_witness :
    sessHybridK.state = State.SslHybrid ∧
    sessHybridK.ntlm_live = false ∧
    sessHybridK.krb_live = false ∧
    (liveProvider ((recv_next_data sessHybridK
        (Event.tlsSignal TlsResult.ok)).session) =
      some (if sessHybridK.krb then Provider.kerberos else Provider.ntlm) ∧
    ∀ a : IdentityArgs, (set_identity sessHybridK a).krb = sessHybridK.krb) :=
  ⟨rfl, rfl, rfl, provider_choice_by_krb_flag sessHybridK rfl rfl rfl⟩

/-- C5 counterexample: two reachable sessions in the authentication phase
with identical identity fields, both without any keytab path, hold
different Credential Providers; the session constructed with the `krb`
flag holds the keytab-based provider although no keytab path is present,
so the choice is not a function of the identity fields alone. -/
theorem provider_choice_counterexample :
    Reaches sessCredssp ∧
    Reaches sessCredsspK ∧
    identityFields sessCredssp = identityFields sessCredsspK ∧
    sessCredssp.keytab_path = [] ∧
    sessCredsspK.keytab_path = [] ∧
    sessCredsspK.service_keytab_path = [] ∧
    liveProvider sessCredssp = some Provider.ntlm ∧
    liveProvider sessCredsspK = some Provider.kerberos :=
  ⟨reach_sessCredssp, reach_sessCredsspK, rfl, rfl, rfl, rfl,
    by decide, by decide⟩

/-- C6: for every session and every routing token recorded by
`set_lb_info`, encoding the initial negotiation request and decoding it as
the peer would yields back exactly the offered-modes bitmask and the
routing token. -/
theorem negotiation_request_roundtrip (s : RdpNego) (token : List Nat) :
    parseNegotiationRequest (send_negotiation_request (set_lb_info s token)) =
      some (modesBitmask s.enabled_protocols, token) := by
  have h := parse_negotiationRequestBytes (modesBitmask s.enabled_protocols) token
    (modesBitmask_lt s.enabled_protocols)
  simpa [send_negotiation_request, set_lb_info] using h

/-- C7: whenever `recv_next_data` returns, the returned boolean is `true`
exactly when the post-call state is not the terminal `Final` state. -/
theorem recv_next_data_bool (s : RdpNego) (e : Event) (b : Bool) (s2 : RdpNego)
    (h : recv_next_data s e = Result.ok b s2) :
    b = true ↔ s2.state ≠ State.Final := by
  cases hst : s.state <;> cases e
  case Negociate.reply r =>
    cases r with
    | success m =>
      by_cases hmem : m ∈ s.enabled_protocols
      · cases m <;>
          simp only [recv_next_data, hst, recv_connection_confirm, if_pos hmem,
            Result.ok.injEq] at h <;>
        · obtain ⟨hb, hs2⟩ := h
          rw [← hs2, ← hb]
          simp
      · simp [recv_next_data, hst, recv_connection_confirm, hmem] at h
    | failure code =>
      simp [recv_next_data, hst, recv_connection_confirm] at h
  case Negociate.tlsSignal r => simp [recv_next_data, hst] at h
  case Negociate.token o => simp [recv_next_data, hst] at h
  case SslHybrid.reply r => simp [recv_next_data, hst] at h
  case SslHybrid.tlsSignal r =>
    cases r with
    | ok =>
      cases hkrb : s.krb <;>
        simp only [recv_next_data, hst, activate_ssl_hybrid, hkrb,
          Bool.false_eq_true, if_true, if_false, Result.ok.injEq] at h <;>
      · obtain ⟨hb, hs2⟩ := h
        rw [← hs2, ← hb]
        simp
    | failed =>
      cases hfb : s.allow_fallback_to_tls with
      | true =>
        simp only [recv_next_data, hst, activate_ssl_hybrid, hfb, if_true,
          fallback_to_tls, Result.ok.injEq] at h
        obtain ⟨hb, hs2⟩ := h
        rw [← hs2, ← hb]
        simp
      | false =>
        simp [recv_next_data, hst, activate_ssl_hybrid, hfb] at h
  case SslHybrid.token o => simp [recv_next_data, hst] at h
  case Tls.reply r => simp [recv_next_data, hst] at h
  case Tls.tlsSignal r =>
    cases r with
    | ok =>
      simp only [recv_next_data, hst, activate_ssl_tls, Result.ok.injEq] at h
      obtain ⟨hb, hs2⟩ := h
      rw [← hs2, ← hb]
      simp
    | failed =>
      simp [recv_next_data, hst, activate_ssl_tls] at h
  case Tls.token o => simp [recv_next_data, hst] at h
  case Credssp.reply r => simp [recv_next_data, hst] at h
  case Credssp.tlsSignal r => simp [recv_next_data, hst] at h
  case Credssp.token o =>
    cases o with
    | more =>
      simp only [recv_next_data, hst, recv_credssp, Result.ok.injEq] at h
      obtain ⟨hb, hs2⟩ := h
      rw [← hs2, ← hb]
      simp [hst]
    | done =>
      simp only [recv_next_data, hst, recv_credssp, Result.ok.injEq] at h
      obtain ⟨hb, hs2⟩ := h
      rw [← hs2, ← hb]
      simp
    | failed =>
      simp [recv_next_data, hst, recv_credssp] at h
  case Final.reply r => simp [recv_next_data, hst] at h
  case Final.tlsSignal r => simp [recv_next_data, hst] at h
  case Final.token o => simp [recv_next_data, hst] at h

theorem recv_next_data_bool_witness :
    (recv_next_data sessCredssp (Event.token CredsspOutcome.done) =
      Result.ok false sessFinal) ∧
    (false = true ↔ sessFinal.state ≠ State.Final) :=
  ⟨by decide, recv_next_data_bool sessCredssp (Event.token CredsspOutcome.done)
    false sessFinal (by decide)⟩

/-- C8: for every reachable session in the terminal state,
`enhanced_rdp_security_is_in_effect` returns `true` exactly when the
selected mode is not the legacy plain-RDP mode. -/
theorem enhanced_security_iff (s : RdpNego) (hr : Reaches s)
    (h : s.state = State.Final) :
    enhanced_rdp_security_is_in_effect s = true ↔
      s.selected_protocol ≠ some Mode.legacy := by
  have hinv := reaches_inv s hr
  have hsel : s.selected_protocol.isSome = true := hinv.sel (by simp [h])
  obtain ⟨m, hm⟩ := Option.isSome_iff_exists.mp hsel
  cases m <;> simp [enhanced_rdp_security_is_in_effect, hm]

theorem enhanced_security_iff_witness :
    sessFinal.state = State.Final ∧
    (enhanced_rdp_security_is_in_effect sessFinal = true ↔
      sessFinal.selected_protocol ≠ some Mode.legacy) :=
  ⟨rfl, enhanced_security_iff sessFinal reach_sessFinal rfl⟩

/-- C9: in every reachable session the two Credential Provider members are
never live together, and one of them is live only while the session is in
the authentication phase, so on leaving that phase by any route, including
abort, the provider has been destroyed. -/
theorem provider_lifetime (s : RdpNego) (h : Reaches s) :
    ¬(s.ntlm_live = true ∧ s.krb_live = true) ∧
    (s.ntlm_live = true ∨ s.krb_live = true → s.state = State.Credssp) :=
  ⟨(reaches_inv s h).one, (reaches_inv s h).live⟩

theorem provider_lifetime_witness :
    ¬(sessCredssp.ntlm_live = true ∧ sessCredssp.krb_live = true) ∧
    (sessCredssp.ntlm_live = true ∨ sessCredssp.krb_live = true →
      sessCredssp.state = State.Credssp) :=
  provider_lifetime sessCredssp reach_sessCredssp

/-- C10: in every reachable session the stored user password and
service-account password occupy at most the 2048-byte capacity of the
fixed internal buffers, whatever identity was supplied. -/
theorem password_capacity (s : RdpNego) (h : Reaches s) :
    s.password.length ≤ 2048 ∧ s.service_password.length ≤ 2048 :=
  ⟨(reaches_inv s h).pw, (reaches_inv s h).spw⟩

theorem password_capacity_witness :
    sessBigId.password.length ≤ 2048 ∧
    sessBigId.service_password.length ≤ 2048 :=
  password_capacity sessBigId reach_sessBigId

end RdpNego

end Nego
